import Mathlib

/-!
Verification of the client-side WebSocket connection manager in
src/client/src/hooks/useWebSocket.ts.

The hook keeps a subscription registry (a Map from message-type tag to a
list of callbacks), an inbound dispatch handler, a send gate, and a
reconnect timer.  We embed it shallowly: callbacks are opaque identities
(Nat), JavaScript values exchanged on the wire are an inductive JsVal,
dispatch is a function returning the list of (callback, argument)
invocations in order, and the connection life cycle is a state structure
with one transition function per event handler, plus a step relation for
reachability arguments about the reconnect timer.
-/

namespace BingoWs

/-- JavaScript values as produced by JSON decoding (plus the distinguished
"undefined", which JSON decoding itself never yields but property access
can).  Objects produced by decoding have unique keys. -/
inductive JsVal where
  | jsUndefined : JsVal
  | nul : JsVal
  | bool (b : Bool) : JsVal
  | num (n : Int) : JsVal
  | str (s : String) : JsVal
  | obj (fields : List (String × JsVal)) : JsVal

/-- Property access "v.k" in JavaScript: on an object, the value of the
field (or undefined when absent); on numbers, strings and booleans it is
undefined; on null and undefined the access throws, which is modelled
separately by propAccessThrows. -/
def getField : JsVal → String → JsVal
  | .obj fs, k =>
    match fs.find? (fun kv => kv.1 = k) with
    | some kv => kv.2
    | none => .jsUndefined
  | _, _ => .jsUndefined

/-- Property access on null or undefined raises a TypeError in
JavaScript; these are the values for which the handler body
"message.type" throws. -/
def propAccessThrows : JsVal → Bool
  | .nul => true
  | .jsUndefined => true
  | _ => false

/-- The wire object built by sendMessage and received by onmessage:
the literal object expression in the source, with fields type and payload. -/
def mkMsg (t : String) (p : JsVal) : JsVal :=
  .obj [("type", .str t), ("payload", p)]

/-- The subscription registry: messageCallbacksRef.current, a Map from
message-type tag to the ordered list of registered callbacks.  Callbacks
are identified by Nat (reference identity of the function object). -/
abbrev Registry := List (String × List Nat)

/-- Map.get(t) followed by the "or empty list" default in the source. -/
def getCbs : Registry → String → List Nat
  | [], _ => []
  | (k, v) :: rest, t => if k = t then v else getCbs rest t

/-- Map.set(t, l): replace the binding for t, or add one when absent. -/
def setCbs : Registry → String → List Nat → Registry
  | [], t, l => [(t, l)]
  | (k, v) :: rest, t, l =>
    if k = t then (t, l) :: rest else (k, v) :: setCbs rest t l

/-- addMessageListener(type, callback): push the callback onto the list
for the tag (creating the list when absent). -/
def addMessageListener (r : Registry) (t : String) (c : Nat) : Registry :=
  setCbs r t (getCbs r t ++ [c])

/-- The closure returned by addMessageListener: re-read the current list
for the tag and set it to the list filtered by reference inequality with
the registered callback. -/
def removeListener (r : Registry) (t : String) (c : Nat) : Registry :=
  setCbs r t ((getCbs r t).filter (fun x => x != c))

/-- Run callbacks.forEach(cb => cb(arg)) where throws tells which
callbacks raise when invoked.  Returns the invocations performed in
order, and whether the loop was aborted by an exception (the throwing
callback is invoked, then the exception propagates out of forEach). -/
def runCbs : List Nat → JsVal → (Nat → Bool) → List (Nat × JsVal) × Bool
  | [], _, _ => ([], false)
  | c :: rest, arg, throws =>
    if throws c then ([(c, arg)], true)
    else
      let t := runCbs rest arg throws
      ((c, arg) :: t.1, t.2)

/-- Map.get(message.type): the Map keys are the strings passed to
addMessageListener, and Map uses strict key equality, so a non-string
type field matches no key. -/
def lookupByVal (r : Registry) : JsVal → List Nat
  | .str s => getCbs r s
  | _ => []

/-- The body of socket.onmessage.  The frame argument is the outcome of
JSON.parse on the received text: none when parsing throws, some v when it
yields the value v.  The whole body sits in one try/catch, so an
exception from property access or from a callback aborts the rest of the
dispatch and is swallowed.  Returns the list of (callback, argument)
invocations in order. -/
def dispatchInvocations (r : Registry) (frame : Option JsVal)
    (throws : Nat → Bool) : List (Nat × JsVal) :=
  match frame with
  | none => []
  | some m =>
    if propAccessThrows m then []
    else
      let typed := runCbs (lookupByVal r (getField m "type"))
        (getField m "payload") throws
      if typed.2 then typed.1
      else typed.1 ++ (runCbs (getCbs r "*") m throws).1

/-! ### Connection life cycle -/

/-- WebSocket.CONNECTING. -/
def WS_CONNECTING : Nat := 0
/-- WebSocket.OPEN. -/
def WS_OPEN : Nat := 1
/-- WebSocket.CLOSING. -/
def WS_CLOSING : Nat := 2
/-- WebSocket.CLOSED. -/
def WS_CLOSED : Nat := 3

/-- The fixed reconnect delay passed to setTimeout in socket.onclose. -/
def RECONNECT_DELAY : Nat := 2000

/-- The physical transport handle: an identity plus its readyState. -/
structure Socket where
  sid : Nat
  readyState : Nat
deriving DecidableEq

/-- The state held by the hook: the two useState cells, the three refs,
and the event-loop bookkeeping needed to reason about timers.  pending
is the multiset of reconnect timers currently scheduled in the event
loop, as (timer id, absolute deadline) pairs; reconnectRef is
reconnectTimeoutRef.current.  nextTimer and nextSock supply fresh
identities. -/
structure HookState where
  isConnected : Bool
  error : Option String
  socket : Option Socket
  callbacks : Registry
  reconnectRef : Option Nat
  pending : List (Nat × Nat)
  nextTimer : Nat
  nextSock : Nat

/-- The state on first render: refs null, no timers, empty registry. -/
def initState : HookState :=
  { isConnected := false, error := none, socket := none, callbacks := [],
    reconnectRef := none, pending := [], nextTimer := 0, nextSock := 0 }

/-- The clear-any-existing-reconnect-timers prologue of connectWebSocket:
if reconnectTimeoutRef.current is set, clearTimeout it (remove it from
the event loop) and null the ref. -/
def clearReconnect (s : HookState) : HookState :=
  match s.reconnectRef with
  | some tid =>
    { s with pending := s.pending.filter (fun td => td.1 != tid),
             reconnectRef := none }
  | none => s

/-- connectWebSocket: clear any pending reconnect timer, close the
existing socket if it is open, then create a new socket and store it in
socketRef.  A freshly constructed WebSocket starts in CONNECTING. -/
def connectWebSocket (s : HookState) : HookState :=
  let s1 := clearReconnect s
  let s2 :=
    match s1.socket with
    | some sock =>
      if sock.readyState = WS_OPEN then
        { s1 with socket := some { sock with readyState := WS_CLOSING } }
      else s1
    | none => s1
  { s2 with socket := some ⟨s2.nextSock, WS_CONNECTING⟩,
            nextSock := s2.nextSock + 1 }

/-- socket.onopen: the transport has reached OPEN; the handler sets
isConnected true and clears the error cell. -/
def onopen (s : HookState) : HookState :=
  { s with isConnected := true, error := none,
           socket := s.socket.map (fun k => { k with readyState := WS_OPEN }) }

/-- socket.onclose for a close event with the given code, at the given
current time: the transport is now CLOSED; the handler sets isConnected
false and, for any code other than 1000, stores a fresh
setTimeout(connectWebSocket, 2000) in reconnectTimeoutRef. -/
def onclose (s : HookState) (code : Nat) (now : Nat) : HookState :=
  let s1 := { s with isConnected := false,
                     socket := s.socket.map
                       (fun k => { k with readyState := WS_CLOSED }) }
  if code ≠ 1000 then
    { s1 with reconnectRef := some s1.nextTimer,
              pending := s1.pending ++ [(s1.nextTimer, now + RECONNECT_DELAY)],
              nextTimer := s1.nextTimer + 1 }
  else s1

/-- socket.onerror: the handler only records the fixed error string. -/
def onerror (s : HookState) : HookState :=
  { s with error := some "Failed to connect to game server" }

/-- socket.onmessage as a state transition: the handler body only reads
the registry and invokes callbacks, so the hook state is unchanged; the
performed invocations are returned alongside. -/
def onmessageEvent (s : HookState) (frame : Option JsVal)
    (throws : Nat → Bool) : HookState × List (Nat × JsVal) :=
  (s, dispatchInvocations s.callbacks frame throws)

/-- A pending reconnect timer may fire at time now iff its deadline has
been reached: setTimeout(f, 2000) runs f no earlier than 2000 ms after
scheduling. -/
def canFire (s : HookState) (tid : Nat) (now : Nat) : Bool :=
  s.pending.any (fun td => td.1 = tid && td.2 ≤ now)

/-- The event loop firing a scheduled reconnect timer: the timer leaves
the pending set and its body runs, which calls connectWebSocket. -/
def timerFire (s : HookState) (tid : Nat) : HookState :=
  connectWebSocket { s with pending := s.pending.filter (fun td => td.1 != tid) }

/-- Whether the hook currently holds a socket in readyState OPEN: the
guard socketRef.current && socketRef.current.readyState === WebSocket.OPEN
of sendMessage. -/
def isOpen (s : HookState) : Bool :=
  match s.socket with
  | some sock => sock.readyState == WS_OPEN
  | none => false

/-- WebSocket.send per its specification: it throws InvalidStateError
when the socket is still CONNECTING, and otherwise either transmits the
frame (OPEN) or silently discards it (CLOSING, CLOSED).  Returns the
frames actually written to the transport. -/
def socketSend (readyState : Nat) (frame : JsVal) : Except String (List JsVal) :=
  if readyState = WS_CONNECTING then .error "InvalidStateError"
  else if readyState = WS_OPEN then .ok [frame]
  else .ok []

/-- sendMessage(type, payload): when the current socket exists and is
OPEN, encode the object with fields type and payload and write it, then
return true; otherwise return false without writing.  The encoding
JSON.stringify is modelled abstractly by the encoded value itself, and
is total on these inductive (hence acyclic, serializable) values.  The
Except layer records any exception escaping the function. -/
def sendMessage (s : HookState) (t : String) (p : JsVal) :
    Except String (Bool × List JsVal) :=
  match s.socket with
  | some sock =>
    if sock.readyState = WS_OPEN then
      match socketSend sock.readyState (mkMsg t p) with
      | .ok written => .ok (true, written)
      | .error e => .error e
    else .ok (false, [])
  | none => .ok (false, [])

/-! ### Event-loop step relation

The events that can actually occur for this hook after the mount effect
has run connectWebSocket once: the current socket completing its
handshake, the current socket closing (at most once, and only when it
has not already closed), an error event, an inbound frame, and a
scheduled reconnect timer firing once its deadline passed.  The hook
does not export connectWebSocket, so no other call sites exist. -/

/-- One event-loop step of the hook. -/
inductive Step : HookState → HookState → Prop where
  | sopen (s : HookState) (k : Socket) :
      s.socket = some k → k.readyState = WS_CONNECTING → Step s (onopen s)
  | sclose (s : HookState) (k : Socket) (code now : Nat) :
      s.socket = some k → k.readyState ≠ WS_CLOSED →
      Step s (onclose s code now)
  | serror (s : HookState) : Step s (onerror s)
  | smessage (s : HookState) (frame : Option JsVal) (throws : Nat → Bool) :
      Step s (onmessageEvent s frame throws).1
  | sfire (s : HookState) (tid now : Nat) :
      canFire s tid now = true → Step s (timerFire s tid)

/-- States the hook can be in after mounting. -/
def Reachable (s : HookState) : Prop :=
  Relation.ReflTransGen Step (connectWebSocket initState) s

/-- A value of the wire message shape described by the specification: an
object whose type field is a string.  Stated from the words of the
specification, only to express claims about malformed frames; the source
itself performs no such shape check. -/
def isWsShape : JsVal → Bool
  | .obj fs =>
    match getField (.obj fs) "type" with
    | .str _ => true
    | _ => false
  | _ => false

/-- The timer bookkeeping invariant maintained by the hook: at most one
reconnect timer is pending in the event loop, reconnectTimeoutRef tracks
it, and a timer is pending only while the current socket has closed. -/
def TimerInv (s : HookState) : Prop :=
  s.pending.length ≤ 1 ∧
  (∀ td ∈ s.pending, s.reconnectRef = some td.1) ∧
  (s.pending ≠ [] → ∃ k, s.socket = some k ∧ k.readyState = WS_CLOSED)

/-! ### Helper lemmas -/

theorem clearReconnect_callbacks (s : HookState) :
    (clearReconnect s).callbacks = s.callbacks := by
  cases h : s.reconnectRef <;> simp [clearReconnect, h]

theorem clearReconnect_reconnectRef (s : HookState) :
    (clearReconnect s).reconnectRef = none := by
  cases h : s.reconnectRef <;> simp [clearReconnect, h]

theorem clearReconnect_pending_some (s : HookState) (tid : Nat)
    (h : s.reconnectRef = some tid) :
    (clearReconnect s).pending = s.pending.filter (fun td => td.1 != tid) := by
  simp [clearReconnect, h]

theorem clearReconnect_pending_nil (s : HookState) (h : s.pending = []) :
    (clearReconnect s).pending = [] := by
  cases hr : s.reconnectRef <;> simp [clearReconnect, hr, h]

theorem connectWebSocket_callbacks (s : HookState) :
    (connectWebSocket s).callbacks = s.callbacks := by
  unfold connectWebSocket
  rcases h : (clearReconnect s).socket with _ | sock
  · simp [h, clearReconnect_callbacks]
  · by_cases ho : sock.readyState = WS_OPEN <;>
      simp [h, ho, clearReconnect_callbacks]

theorem connectWebSocket_reconnectRef (s : HookState) :
    (connectWebSocket s).reconnectRef = none := by
  unfold connectWebSocket
  rcases h : (clearReconnect s).socket with _ | sock
  · simp [h, clearReconnect_reconnectRef]
  · by_cases ho : sock.readyState = WS_OPEN <;>
      simp [h, ho, clearReconnect_reconnectRef]

theorem connectWebSocket_pending (s : HookState) :
    (connectWebSocket s).pending = (clearReconnect s).pending := by
  unfold connectWebSocket
  rcases h : (clearReconnect s).socket with _ | sock
  · simp [h]
  · by_cases ho : sock.readyState = WS_OPEN <;> simp [h, ho]

theorem connectWebSocket_pending_nil (s : HookState) (h : s.pending = []) :
    (connectWebSocket s).pending = [] := by
  rw [connectWebSocket_pending, clearReconnect_pending_nil s h]

theorem getCbs_setCbs_self (r : Registry) (t : String) (l : List Nat) :
    getCbs (setCbs r t l) t = l := by
  induction r with
  | nil => simp [setCbs, getCbs]
  | cons kv rest ih =>
    by_cases h : kv.1 = t
    · simp [setCbs, getCbs, h]
    · simp [setCbs, getCbs, h, ih]

theorem getCbs_setCbs_ne (r : Registry) (t t2 : String) (l : List Nat)
    (h : t2 ≠ t) : getCbs (setCbs r t l) t2 = getCbs r t2 := by
  have h2 : ¬ t = t2 := fun e => h e.symm
  induction r with
  | nil => simp [setCbs, getCbs, h2]
  | cons kv rest ih =>
    by_cases hk : kv.1 = t
    · simp [setCbs, getCbs, hk, h2]
    · simp [setCbs, getCbs, hk, ih]

theorem runCbs_noThrow (l : List Nat) (arg : JsVal) :
    runCbs l arg (fun _ => false) = (l.map (fun c => (c, arg)), false) := by
  induction l with
  | nil => simp [runCbs]
  | cons c rest ih => simp [runCbs, ih]

theorem getField_mkMsg_type (t : String) (p : JsVal) :
    getField (mkMsg t p) "type" = .str t := by
  simp [getField, mkMsg, List.find?]

theorem getField_mkMsg_payload (t : String) (p : JsVal) :
    getField (mkMsg t p) "payload" = p := by
  simp [getField, mkMsg, List.find?]

/-- Running a callback list whose prefix does not throw and then hits a
throwing callback performs the prefix invocations plus the throwing one,
and aborts. -/
theorem runCbs_abort (l1 : List Nat) (c : Nat) (l2 : List Nat) (arg : JsVal)
    (throws : Nat → Bool) (h1 : ∀ x ∈ l1, throws x = false)
    (hc : throws c = true) :
    runCbs (l1 ++ c :: l2) arg throws =
      (l1.map (fun x => (x, arg)) ++ [(c, arg)], true) := by
  induction l1 with
  | nil => simp [runCbs, hc]
  | cons a rest ih =>
    have ha : throws a = false := h1 a (by simp)
    have ihr := ih (fun x hx => h1 x (by simp [hx]))
    simp [runCbs, ha, ihr]

/-- The one-step behavior of sendMessage, summarized: it always returns
normally, true with the encoded write exactly when the socket is OPEN,
false with no write otherwise. -/
theorem sendMessage_eq (s : HookState) (t : String) (p : JsVal) :
    sendMessage s t p =
      .ok (if isOpen s then (true, [mkMsg t p]) else (false, [])) := by
  rcases hs : s.socket with _ | sock
  · simp [sendMessage, isOpen, hs]
  · by_cases ho : sock.readyState = WS_OPEN
    · simp [sendMessage, isOpen, hs, ho, socketSend, WS_OPEN, WS_CONNECTING]
    · simp [sendMessage, isOpen, hs, ho]

/-- General shape of a dispatch that no callback aborts: the typed list
(looked up by the value of the type field) gets the payload field, in
order, then the wildcard list gets the decoded value, in order. -/
theorem dispatch_noThrow (r : Registry) (m : JsVal)
    (h : propAccessThrows m = false) :
    dispatchInvocations r (some m) (fun _ => false) =
      (lookupByVal r (getField m "type")).map (fun c => (c, getField m "payload"))
        ++ (getCbs r "*").map (fun c => (c, m)) := by
  simp [dispatchInvocations, h, runCbs_noThrow]

theorem timerInv_init : TimerInv (connectWebSocket initState) := by
  refine ⟨?_, ?_, ?_⟩ <;>
    simp [connectWebSocket_pending_nil initState rfl]

theorem timerInv_step {s s2 : HookState} (h : Step s s2) (inv : TimerInv s) :
    TimerInv s2 := by
  obtain ⟨h1, h2, h3⟩ := inv
  cases h with
  | sopen k hs hk =>
    have hp : s.pending = [] := by
      by_contra hne
      obtain ⟨k2, hk2, hc2⟩ := h3 hne
      have he : k = k2 := Option.some.inj (hs.symm.trans hk2)
      rw [← he] at hc2
      rw [hk] at hc2
      simp [WS_CONNECTING, WS_CLOSED] at hc2
    refine ⟨?_, ?_, ?_⟩ <;> simp [onopen, hp]
  | sclose k code now hs hk =>
    have hp : s.pending = [] := by
      by_contra hne
      obtain ⟨k2, hk2, hc2⟩ := h3 hne
      have he : k = k2 := Option.some.inj (hs.symm.trans hk2)
      rw [← he] at hc2
      exact hk hc2
    by_cases hc : code = 1000
    · refine ⟨?_, ?_, ?_⟩ <;> simp [onclose, hc, hp]
    · refine ⟨?_, ?_, ?_⟩ <;> simp [onclose, hc, hp, hs]
  | serror => exact ⟨h1, h2, h3⟩
  | smessage frame throws => exact ⟨h1, h2, h3⟩
  | sfire tid now hcf =>
    have hp : (s.pending.filter (fun td => td.1 != tid)) = [] := by
      simp [canFire, List.any_eq_true] at hcf
      obtain ⟨a, b, hmem, he, hle⟩ := hcf
      rcases hl : s.pending with _ | ⟨td0, rest⟩
      · rfl
      · have hr : rest = [] := by
          rw [hl] at h1
          simp at h1
          exact h1
        subst he
        subst hr
        rw [hl] at hmem
        simp at hmem
        simp [← hmem]
    unfold timerFire
    have hout : (connectWebSocket
        { s with pending := s.pending.filter (fun td => td.1 != tid) }).pending
        = [] :=
      connectWebSocket_pending_nil _ hp
    exact ⟨by simp [hout], by simp [hout], by simp [hout]⟩

theorem timerInv_reachable {s : HookState} (h : Reachable s) : TimerInv s := by
  have h2 : Relation.ReflTransGen Step (connectWebSocket initState) s := h
  clear h
  induction h2 with
  | refl => exact timerInv_init
  | tail hsteps hstep ih => exact timerInv_step hstep ih

/-! ### Claim theorems -/

/-- C1: dispatching a decoded message with a string type tag and a
payload invokes each callback registered under the tag exactly once, in
registration order, with the payload, then each wildcard callback
exactly once, in registration order, with the full decoded object. -/
theorem C1_dispatch_order (r : Registry) (t : String) (p : JsVal) :
    dispatchInvocations r (some (mkMsg t p)) (fun _ => false) =
      (getCbs r t).map (fun c => (c, p))
        ++ (getCbs r "*").map (fun c => (c, mkMsg t p)) := by
  rw [dispatch_noThrow r (mkMsg t p) rfl, getField_mkMsg_type,
    getField_mkMsg_payload]
  rfl

/-- C10: a message whose type tag is the literal string "*" makes both
lookups hit the wildcard list, so each callback registered under "*" is
invoked twice per registration: once with the payload via the typed
lookup, then once with the full decoded object via the wildcard
lookup. -/
theorem C10_star_message_double_delivery (r : Registry) (p : JsVal) :
    dispatchInvocations r (some (mkMsg "*" p)) (fun _ => false) =
      (getCbs r "*").map (fun c => (c, p))
        ++ (getCbs r "*").map (fun c => (c, mkMsg "*" p)) ∧
    ∀ c : Nat,
      ((dispatchInvocations r (some (mkMsg "*" p)) (fun _ => false)).map
        Prod.fst).count c = 2 * (getCbs r "*").count c := by
  refine ⟨C1_dispatch_order r "*" p, fun c => ?_⟩
  rw [C1_dispatch_order r "*" p]
  simp [List.count_append, List.map_map, Function.comp_def, two_mul]

/-- C3 counterexample: registering the same callback twice under one tag
leaves two entries, but invoking one unsubscribe handle filters by
inequality with the callback and removes both entries, not exactly one. -/
theorem C3_counterexample :
    getCbs (addMessageListener (addMessageListener [] "t" 0) "t" 0) "t"
      = [0, 0] ∧
    getCbs (removeListener
      (addMessageListener (addMessageListener [] "t" 0) "t" 0) "t" 0) "t"
      = [] := by
  constructor <;> rfl

/-- C3 amended: subscribe appends one entry per call, so duplicate
registrations create duplicate entries; the unsubscribe handle removes
every entry identical to its callback from the list of its tag (hence
exactly one entry when the callback is registered once, and a no-op
when it is absent), and leaves every other tag untouched. -/
theorem C3_unsubscribe_removes_all_duplicates (r : Registry)
    (t t2 : String) (c : Nat) :
    getCbs (addMessageListener r t c) t = getCbs r t ++ [c] ∧
    getCbs (removeListener r t c) t2 =
      (if t2 = t then (getCbs r t).filter (fun x => x != c)
       else getCbs r t2) := by
  constructor
  · simp [addMessageListener, getCbs_setCbs_self]
  · by_cases h : t2 = t
    · subst h
      simp [removeListener, getCbs_setCbs_self]
    · simp [removeListener, h, getCbs_setCbs_ne _ _ _ _ h]

/-- C4: sendMessage returns false with no transport write whenever no
socket exists or the socket is not OPEN, and returns true after writing
the encoded message when the socket is OPEN.  The second conjunct checks
that a state without any socket is never considered open. -/
theorem C4_send_gate (s : HookState) (t : String) (p : JsVal)
    (b : Bool) (e : Option String) (cb : Registry) (ref : Option Nat)
    (pend : List (Nat × Nat)) (nt ns : Nat) :
    sendMessage s t p =
      .ok (if isOpen s then (true, [mkMsg t p]) else (false, [])) ∧
    isOpen { isConnected := b, error := e, socket := none, callbacks := cb,
             reconnectRef := ref, pending := pend, nextTimer := nt,
             nextSock := ns } = false :=
  ⟨sendMessage_eq s t p, rfl⟩

/-- C5 counterexample: two callbacks registered under tag t, the first
throws; dispatch invokes only the first and the exception aborts the
loop, so the second callback in the list is never invoked, contradicting
the claim that delivery proceeds to the remaining callbacks. -/
theorem C5_counterexample :
    dispatchInvocations [("t", [0, 1])] (some (mkMsg "t" (.str "hi")))
      (fun c => c == 0) = [(0, .str "hi")] ∧
    (1, JsVal.str "hi") ∉ dispatchInvocations [("t", [0, 1])]
      (some (mkMsg "t" (.str "hi"))) (fun c => c == 0) := by
  have h : dispatchInvocations [("t", [0, 1])] (some (mkMsg "t" (.str "hi")))
      (fun c => c == 0) = [(0, .str "hi")] := rfl
  refine ⟨h, ?_⟩
  rw [h]
  simp

/-- C5 amended: the dispatch loop is not isolated per callback.  When a
callback throws, the callbacks before it in the list of the tag have
been invoked with the payload and the throwing one was invoked, but the
callbacks after it and all wildcard callbacks are skipped; the exception
is swallowed by the handler and does not propagate. -/
theorem C5_throw_aborts_dispatch (r : Registry) (m : JsVal)
    (throws : Nat → Bool) (l1 : List Nat) (c : Nat) (l2 : List Nat)
    (hm : propAccessThrows m = false)
    (hl : lookupByVal r (getField m "type") = l1 ++ c :: l2)
    (h1 : ∀ x ∈ l1, throws x = false) (hc : throws c = true) :
    dispatchInvocations r (some m) throws =
      l1.map (fun x => (x, getField m "payload"))
        ++ [(c, getField m "payload")] := by
  simp [dispatchInvocations, hm, hl,
    runCbs_abort l1 c l2 (getField m "payload") throws h1 hc]

/-- C5 amended, witnessed at the concrete counterexample input. -/
theorem C5_throw_aborts_dispatch_witness :
    propAccessThrows (mkMsg "t" (.str "hi")) = false ∧
    lookupByVal [("t", [0, 1])] (getField (mkMsg "t" (.str "hi")) "type")
      = [] ++ 0 :: [1] ∧
    (∀ x ∈ ([] : List Nat), (fun c : Nat => c == 0) x = false) ∧
    (fun c : Nat => c == 0) 0 = true ∧
    dispatchInvocations [("t", [0, 1])] (some (mkMsg "t" (.str "hi")))
      (fun c => c == 0) =
      ([] : List Nat).map
        (fun x => (x, getField (mkMsg "t" (.str "hi")) "payload"))
        ++ [(0, getField (mkMsg "t" (.str "hi")) "payload")] :=
  ⟨rfl, rfl, by simp, rfl,
    C5_throw_aborts_dispatch [("t", [0, 1])] (mkMsg "t" (.str "hi"))
      (fun c => c == 0) [] 0 [1] rfl rfl (by simp) rfl⟩

/-- C6 counterexample: the frame decoding to the number 42 is not of the
wire message shape, yet dispatch is not dropped: a wildcard subscriber
receives the decoded value, so the count of invoked callbacks is one,
not zero. -/
theorem C6_counterexample :
    isWsShape (JsVal.num 42) = false ∧
    dispatchInvocations [("*", [0])] (some (JsVal.num 42)) (fun _ => false)
      = [(0, JsVal.num 42)] :=
  ⟨rfl, rfl⟩

/-- C6 amended: only frames on which JSON decoding throws (and decoded
null, on which the property access of the handler throws) are dropped
with zero invocations; any other decoded value is dispatched even when
it is not of the wire message shape, typed callbacks firing only when
its type field is a string, and wildcard callbacks always receiving the
decoded value.  The message handler never changes the hook state, so no
state-machine transition occurs and the connection is not closed, for
malformed and well-formed frames alike. -/
theorem C6_malformed_frames (r : Registry) (throws : Nat → Bool)
    (s : HookState) (frame : Option JsVal) (v : JsVal) :
    dispatchInvocations r none throws = [] ∧
    (onmessageEvent s frame throws).1 = s ∧
    dispatchInvocations r (some v) (fun _ => false) =
      (if propAccessThrows v then []
       else (lookupByVal r (getField v "type")).map
              (fun c => (c, getField v "payload"))
            ++ (getCbs r "*").map (fun c => (c, v))) := by
  refine ⟨rfl, rfl, ?_⟩
  by_cases h : propAccessThrows v
  · simp [dispatchInvocations, h]
  · simp only [Bool.not_eq_true] at h
    simp [dispatch_noThrow r v h, h]

/-- C8: sendMessage never throws; for every state, tag and payload it
returns normally with a boolean. -/
theorem C8_send_never_throws (s : HookState) (t : String) (p : JsVal) :
    ∃ res, sendMessage s t p = .ok res :=
  ⟨_, sendMessage_eq s t p⟩

/-- C2: from a state with no pending reconnect timer, a close event with
code 1000 schedules nothing, while a close event with any other code
schedules exactly one timer whose deadline is the fixed 2000 ms delay
after the close; the timer cannot fire before the deadline and can fire
at it, and its firing is a call to connectWebSocket. -/
theorem C2_close_reconnect (s : HookState) (code now : Nat)
    (hp : s.pending = []) (hcode : code ≠ 1000) :
    (onclose s 1000 now).pending = [] ∧
    (onclose s code now).pending = [(s.nextTimer, now + RECONNECT_DELAY)] ∧
    (∀ t2, canFire (onclose s code now) s.nextTimer t2 = true ↔
      now + RECONNECT_DELAY ≤ t2) ∧
    timerFire (onclose s code now) s.nextTimer =
      connectWebSocket { onclose s code now with pending := [] } := by
  have hpend : (onclose s code now).pending
      = [(s.nextTimer, now + RECONNECT_DELAY)] := by
    simp [onclose, hcode, hp]
  refine ⟨by simp [onclose, hp], hpend, ?_, ?_⟩
  · intro t2
    simp [canFire, hpend]
  · unfold timerFire
    have hfil : (onclose s code now).pending.filter
        (fun td => td.1 != s.nextTimer) = [] := by
      rw [hpend]
      simp
    rw [hfil]

/-- C2, witnessed at the initial state with a 1006 close at time 0. -/
theorem C2_close_reconnect_witness :
    initState.pending = [] ∧ (1006 : Nat) ≠ 1000 ∧
    ((onclose initState 1000 0).pending = [] ∧
     (onclose initState 1006 0).pending
       = [(initState.nextTimer, 0 + RECONNECT_DELAY)] ∧
     (∀ t2, canFire (onclose initState 1006 0) initState.nextTimer t2 = true ↔
       0 + RECONNECT_DELAY ≤ t2) ∧
     timerFire (onclose initState 1006 0) initState.nextTimer =
       connectWebSocket { onclose initState 1006 0 with pending := [] }) :=
  ⟨rfl, by decide, C2_close_reconnect initState 1006 0 rfl (by decide)⟩

/-- C7: in every state the hook can reach after mounting, at most one
reconnect timer is pending, and connectWebSocket begins by cancelling
the timer held in reconnectTimeoutRef, so the referenced timer is never
still pending after a new connection attempt starts. -/
theorem C7_single_reconnect_timer (s : HookState) (h : Reachable s) :
    s.pending.length ≤ 1 ∧
    (∀ tid dl, s.reconnectRef = some tid →
      (tid, dl) ∉ (connectWebSocket s).pending) := by
  refine ⟨(timerInv_reachable h).1, ?_⟩
  intro tid dl href hmem
  rw [connectWebSocket_pending, clearReconnect_pending_some s tid href] at hmem
  simp [List.mem_filter] at hmem

/-- C7, witnessed at the state produced by mounting the hook. -/
theorem C7_single_reconnect_timer_witness :
    Reachable (connectWebSocket initState) ∧
    ((connectWebSocket initState).pending.length ≤ 1 ∧
     (∀ tid dl, (connectWebSocket initState).reconnectRef = some tid →
       (tid, dl) ∉ (connectWebSocket (connectWebSocket initState)).pending)) :=
  ⟨Relation.ReflTransGen.refl,
    C7_single_reconnect_timer (connectWebSocket initState)
      Relation.ReflTransGen.refl⟩

/-- C9: the subscription registry survives reconnects: replacing the
socket via connectWebSocket, whether directly or through the reconnect
timer firing, and every other event handler, leaves the callbacks map
unchanged. -/
theorem C9_registry_persists (s : HookState) (tid code now : Nat)
    (frame : Option JsVal) (throws : Nat → Bool) :
    (connectWebSocket s).callbacks = s.callbacks ∧
    (timerFire s tid).callbacks = s.callbacks ∧
    (onopen s).callbacks = s.callbacks ∧
    (onclose s code now).callbacks = s.callbacks ∧
    (onerror s).callbacks = s.callbacks ∧
    ((onmessageEvent s frame throws).1).callbacks = s.callbacks := by
  refine ⟨connectWebSocket_callbacks s, ?_, rfl, ?_, rfl, rfl⟩
  · unfold timerFire
    rw [connectWebSocket_callbacks]
  · by_cases hc : code = 1000 <;> simp [onclose, hc]

end BingoWs
